import Mathlib

/-!
Shallow embedding of `src/experimental/rule_inference/piranha_chat.py`
(class `PiranhaGPTChat`).

The provider (`openai.ChatCompletion.create`) is modelled by a script: a
finite list of `Attempt`s, one per provider call, each either returning a
list of samples or raising an exception.  The `while True` retry loop of
`get_completion` is embedded as structural recursion over that script; a
script that runs out while the loop is still retrying yields the outcome
`PyResult.diverge` (the real loop would keep blocking).

Observable effects are collected in a `Trace`: the number of provider
calls issued, the list of sleep durations (`time.sleep(sleep_time)` with
`sleep_time = 10`), and the list of exceptions passed to `logger.error`.

The filesystem walked by `_get_examples` is modelled as the list of
`(root, file, contents)` triples that `os.walk` yields, in traversal
order, with `os.path.join root file` embedded as `root ++ "/" ++ file`.

The Python call `str.format(**holes)` on the class template `input_template` is
embedded as `pyFormat` over the template split into literal and
placeholder parts (`input_template_parts`); a missing key raises
`KeyError` with that key, modelled as `Except.error key`.
-/

namespace PiranhaChat

/-- Role tag of a chat message (`"user"` / `"assistant"` in the source). -/
inductive Role
  | user
  | assistant
deriving DecidableEq, Repr

/-- One element of `self.messages`: `{"role": ..., "content": ...}`. -/
structure Message where
  role : Role
  content : String
deriving DecidableEq, Repr

/-- Exceptions that matter to the embedded code: the three transient
provider errors caught by `get_completion`, any other provider-raised
exception (`other`), and the Python `IndexError` from indexing an empty
list. -/
inductive PyError
  | rateLimitError
  | timeout
  | apiError
  | other (name : String)
  | indexError
deriving DecidableEq, Repr

/-- Whether an exception is caught by the `except (RateLimitError,
Timeout, APIError)` clause of `get_completion`. -/
def isTransient : PyError → Bool
  | .rateLimitError => true
  | .timeout => true
  | .apiError => true
  | _ => false

/-- One provider call outcome: the list of `choices[i].message.content`
strings, or an exception raised by the call. -/
inductive Attempt
  | ok (samples : List String)
  | raise (e : PyError)
deriving DecidableEq, Repr

/-- Observable effects of a run: provider calls issued, sleep durations
executed (`time.sleep`), and exceptions logged via `logger.error`. -/
structure Trace where
  calls : Nat
  sleeps : List Nat
  logs : List PyError
deriving DecidableEq, Repr

/-- Outcome of running a piece of Python code: normal return, a
propagated exception, or the retry loop still running when the provider
script is exhausted. -/
inductive PyResult (α : Type)
  | ok (v : α)
  | exn (e : PyError)
  | diverge
deriving DecidableEq, Repr

/-- `sleep_time = 10` from `get_completion`. -/
def sleep_time : Nat := 10

/-- A file seen by `os.walk`: the directory `root`, the bare file name
`file`, and the text `Path(...).read_text()` would return. -/
structure FileEntry where
  root : String
  file : String
  contents : String
deriving DecidableEq, Repr

/-- `PiranhaGPTChat._get_examples`: for every walked file whose name ends
with `"rules.toml"`, append a header tag with the joined path and the
file contents with every line starting with `"#"` removed, wrapped in a
```` ```toml ```` fence. -/
def _get_examples (files : List FileEntry) : String :=
  files.foldl
    (fun task_examples entry =>
      if entry.file.endsWith "rules.toml" then
        let file_name := entry.root ++ "/" ++ entry.file
        let file_contents := String.intercalate "\n"
          ((entry.contents.splitOn "\n").filter (fun line => !line.startsWith "#"))
        task_examples
          ++ ("<file_name_start> " ++ file_name ++ " <file_name_end>\n")
          ++ ("```toml " ++ file_contents ++ "```\n")
      else task_examples)
    ""

/-- A piece of a Python format string: literal text, or a `{name}`
placeholder. -/
inductive TemplatePart
  | lit (s : String)
  | hole (name : String)
deriving DecidableEq, Repr

/-- Python `template.format(**holes)`: substitute every placeholder from
the mapping; a placeholder whose key is absent raises `KeyError(key)`,
modelled as `Except.error key` (leftmost missing key).  Extra unused
keys are ignored. -/
def pyFormat : List TemplatePart → List (String × String) → Except String String
  | [], _ => .ok ""
  | .lit s :: rest, holes => (pyFormat rest holes).map (fun t => s ++ t)
  | .hole n :: rest, holes =>
    match holes.lookup n with
    | some v => (pyFormat rest holes).map (fun t => v ++ t)
    | none => .error n

/-- The class attribute `PiranhaGPTChat.explanation`, verbatim. -/
def explanation : String :=
  "\nYour task is to improve refactoring rules for Polyglot Piranha, a tool that uses tree-sitter for parsing and refactoring code.\nEach rule will transform an original code snippet into a provided refactored version.\nAs input you will receive the original and refactored snippets and corresponding rules inferred statically.\nYour task is to make the rules more human like. You should make sure you do not change the semantics of the code.\nIf you decide to do so you should explain why you think the semantics are preserved.\n\nThe rule should be in Polyglot Piranha\x27s domain-specific language (DSL). Explanations and examples of the DSL are below.\n\nYour rule should accurately capture the transformation from the original to the refactored code.\nIt should be specific enough to avoid matching unrelated code patterns, but general enough to include code from captured groups where possible.\n\n========================= Piranha Rule Explanation =========================\n\nThe TOML file should contain at least one rule with the following properties:\n\n- \"query\": Tree-sitter query to find the code pattern to refactor\n- \"replace_node\": The captured node in the query that will be replaced\n- \"replace_string\": Replacement string or pattern for the refactored code\n- \"holes\": Placeholders in your queries that will be instantiated at runtime\n\nAdditionally, the rule can have optional properties such as \"is_seed_rule\", \"groups\", and \"filters\".\nFilters can have properties like \"enclosing_node\", \"not_contains\", \"contains\", \"at_least\", \"at_most\".\nThe filters are used to specify conditions for the rule to be applied.\n       \n========================= Output Format =========================\n\n<file_name_start> your_rule_name.toml <file_name_end>\n```toml\n# Define your rule within this section\n[[rules]]\n# Provide a unique name for your rule\nname = \"your_rule_name\"\n\n# Write a Tree-sitter query to identify the code pattern for refactoring. The outer most node should always be captured.\nquery = \"\"\"(\n    (method_invocation name: (_) @name\n                       arguments: (argument_list) @args) @invk\n    (#eq? @name @hole1))\n\"\"\"\n\n# Specify the captured node from the query that will be replaced\nreplace_node = \"invk\"\n\n# Replacement string that will substitute `replace_node`\nreplace = \"X.other_string @args\"\n\n# Specify any placeholders in your queries that will be filled in at runtime\n# In our case hole1 is used in the query, but not defined. Therefore it is a hole.\nholes = [\"hole1\"]\n\n# Specify if this rule should be triggered first. If it depends on other rules, set to false\nis_seed_rule = true\n\n# If necessary, define filters for your rule\n[[rules.filters]]\n\n# This pattern should match any ancestor of the captured node (optional)\nenclosing_node = \"(your_enclosing_node_pattern) @your_capture_name\"\n\n# Define patterns that should not be present within the enclosing_node (optional)\n# Always use a list, even if you only have one pattern.\nnot_contains = [\n    \"\"\"(\n    (identifier) @id\n    (#eq? @id \"x\"))\n    \"\"\",\n]\n# Define a pattern that should be present within the enclosing_node (optional)\ncontains =\n    \"\"\"(\n    (identifier) @other_id\n    (#eq? @other_id \"y\"))\n    \"\"\"\n# Define the minimum and maximum number of children that should match the \x27contains\x27 pattern (optional)\nat_least = 1\nat_most = 5\n```\n\n========================= Common anti-patterns =========================\n\n=== Infinite loops ===\n\nPiranha rules are applied until fixedpoint. Meaning one should be very careful when substituting nodes to make sure \nthe query stops matching once the cleanup is done. This can be achieved by using the \"not_contains\" filter or with (\n#eq? ...) expressions in the query.\n\nExample 1:\n\nreplace_node = \"program\"\nreplace = \"X @program\" \n\n... is generally a bad idea, because the query will keep matching the same node over and over again. To avoid you \n NEED to specify a filter or constraint the query. That will stop the rule from matching the same node again.\n\nExample 2:\nquery = \"\"\"\n(\n    (class_declaration\n        name: (identifier) @class_name\n    ) @class_declaration\n)\n\"\"\"\nreplace_node = \"class_name\"\nreplace = \"B\"\n\n... is also a bad idea. Since the query does not constraint the class name to be \"A\", the rule will match any class name.\nMoreover, it will run into an infinite loop, because the rule will keep matching the same node over and over again.\n\n=== Overly long matches ===\n\nSometimes queries can be significantly simplified by matching large subtrees. Making small queries is generally preferable\nto matching a large subtree. \n\nExample 1:\n\nquery = \"\"\"\n(\n    (import_declaration\n        (scoped_identifier\n            scope: (scoped_identifier\n                scope: (scoped_identifier\n                    scope: (scoped_identifier\n                        scope: (scoped_identifier\n                            scope: (scoped_identifier\n                                scope: (identifier) @scope1\n                                name: (identifier) @name1)\n                            name: (identifier) @name2)\n                        name: (identifier) @name3)\n                    name: (identifier) @name4)\n                name: (identifier) @name5)\n            name: (identifier) @name6)\n    ) @import_decl\n    (#eq? @scope1 \"com\")\n    (#eq? @name1 \"uber\")\n    (#eq? @name2 \"common\")\n    (#eq? @name3 \"context\")\n    (#eq? @name4 \"concurrent\")\n    (#eq? @name5 \"MoreContextExecutors\")\n    (#eq? @name6 \"directExecutor\")\n)\n\"\"\"\n... is too complex. It can be simplified to \n\nquery = \"\"\"(\n    (import_declaration \n        (_) @name) @import_decl\n    (#eq? @name \"com.uber.common.context.concurrent.MoreContextExecutors.directExecutor\"))\n\"\"\"\n\n\n=== Not considering unnamed nodes ===\n\nTree-sitter produces parse trees rather than abstract syntax trees. This means that nodes in tree sitter\ncan contain children corresponding to punctuation, whitespace, and other tokens. This should be taken into account\nwhen constructing the replacement string.\n\nExample 1:\n\nquery = \"\"\"(\n    (method_invocation name: (_) @name\n                       arguments: (argument_list) @args) @invk\n    (#eq? @name @hole1))\n\"\"\"\n\nreplace_node = \"invk\"\nreplace = \"X.other_string(@args)\"\n... is wrong, because @args already contains the parentheses.\n\n=== Forgetting parenthesis ===\n\nIf queries are not surrounded by parenthesis, tree-sitter will interpreter them as independent queries.\n\nExample 1:\n\nquery = \"\"\"\n    (method_invocation name: (identifier) @name\n                       arguments: (argument_list) @args) @invk\n    (#eq? @name \"directExecutor\")\n\"\"\"\n... is a bad rule because the query is not surrounded by parenthesis.\n\n========================= Rule Examples =========================\n    "

/-- Literal text of `input_template` before the `source_code` hole. -/
def tmpl_0 : String :=
  "\n========================= Task =========================\n\n=== Source code === \n\n"

/-- Literal text between the `source_code` and `source_tree` holes. -/
def tmpl_1 : String :=
  "\n\n=== Tree-sitter representation (source code) ===\n\n"

/-- Literal text between the `source_tree` and `target_tree` holes. -/
def tmpl_2 : String :=
  "\n\n=== Tree-sitter representation (target code) ===\n\n"

/-- Literal text between the `target_tree` and `diff` holes. -/
def tmpl_3 : String :=
  "\n\n=== Diff === \n\n"

/-- Literal text between the `diff` and `hints` holes. -/
def tmpl_4 : String :=
  "\n\n=== Additional requirements === \n\n"

/-- Literal text of `input_template` after the `hints` hole. -/
def tmpl_5 : String :=
  "\n========================= Please improve my rule =========================\n\n    "

/-- The class attribute `PiranhaGPTChat.input_template`, split at its
five `\x7bname\x7d` placeholders. -/
def input_template_parts : List TemplatePart :=
  [TemplatePart.lit tmpl_0,
   TemplatePart.hole "source_code",
   TemplatePart.lit tmpl_1,
   TemplatePart.hole "source_tree",
   TemplatePart.lit tmpl_2,
   TemplatePart.hole "target_tree",
   TemplatePart.lit tmpl_3,
   TemplatePart.hole "diff",
   TemplatePart.lit tmpl_4,
   TemplatePart.hole "hints",
   TemplatePart.lit tmpl_5]

/-- Render template parts back to the raw format string, placeholders
printed as `\x7bname\x7d`. -/
def renderParts : List TemplatePart → String
  | [] => ""
  | .lit s :: rest => s ++ renderParts rest
  | .hole n :: rest => "\x7b" ++ n ++ "\x7d" ++ renderParts rest

/-- The raw `input_template` string, recovered from its parts. -/
def input_template : String := renderParts input_template_parts

/-- `PiranhaGPTChat.__attrs_post_init__`: build the example corpus, fill
the task template from `holes`, and append the single initial user
message `explanation + "\n" + examples + "\n" + filled` to `messages`.
A missing template key raises `KeyError` (`Except.error`), in which case
no message is appended and construction fails. -/
def attrs_post_init (files : List FileEntry) (holes : List (String × String))
    (messages : List Message) : Except String (List Message) :=
  let examples := _get_examples files
  match pyFormat input_template_parts holes with
  | .error k => .error k
  | .ok filled =>
    let formatted := explanation ++ "\n" ++ examples ++ "\n" ++ filled
    .ok (messages ++ [⟨Role.user, formatted⟩])

/-- `PiranhaGPTChat.append_system_message`: append an assistant message. -/
def append_system_message (messages : List Message) (system_message : String) :
    List Message :=
  messages ++ [⟨Role.assistant, system_message⟩]

/-- `PiranhaGPTChat.append_user_followup`: append a user message. -/
def append_user_followup (messages : List Message) (followup_message : String) :
    List Message :=
  messages ++ [⟨Role.user, followup_message⟩]

/-- `PiranhaGPTChat.get_completion`: the unbounded retry loop.  Each
iteration issues one provider call (consumes one `Attempt`).  Success
returns all samples at once.  A transient exception is logged, followed
by `time.sleep(sleep_time)`, and the loop retries.  Any other exception
propagates.  `self.messages` is read but never written, so it is passed
through unchanged.  The parameter `n_samples` is forwarded to the
provider and does not influence control flow. -/
def get_completion (messages : List Message) (n_samples : Nat) :
    List Attempt → PyResult (List String) × List Message × Trace
  | [] => (.diverge, messages, ⟨0, [], []⟩)
  | .ok samples :: _ => (.ok samples, messages, ⟨1, [], []⟩)
  | .raise e :: rest =>
    if isTransient e then
      let r := get_completion messages n_samples rest
      (r.1, r.2.1, ⟨r.2.2.calls + 1, sleep_time :: r.2.2.sleeps, e :: r.2.2.logs⟩)
    else (.exn e, messages, ⟨1, [], []⟩)

/-- `PiranhaGPTChat.get_model_response`: if the last message is an
assistant message return its content without calling the provider;
otherwise call `get_completion(n_samples=1)`, append `completions[0]`
via `append_system_message`, and return it.  `self.messages[-1]` on an
empty list raises `IndexError`, as does `completions[0]` on an empty
sample list. -/
def get_model_response (messages : List Message) (attempts : List Attempt) :
    PyResult String × List Message × Trace :=
  match messages.getLast? with
  | none => (.exn .indexError, messages, ⟨0, [], []⟩)
  | some latest_message =>
    if latest_message.role = Role.assistant then
      (.ok latest_message.content, messages, ⟨0, [], []⟩)
    else
      match get_completion messages 1 attempts with
      | (.ok completions, m, t) =>
        match completions.head? with
        | some content => (.ok content, append_system_message m content, t)
        | none => (.exn .indexError, m, t)
      | (.exn e, m, t) => (.exn e, m, t)
      | (.diverge, m, t) => (.diverge, m, t)

/-- Spec-side rendering of one walked file, following the loader
contract: a matching file contributes its joined path in a header tag
followed by its contents with comment lines dropped; any other file
contributes nothing. -/
def exampleBlock (entry : FileEntry) : String :=
  if entry.file.endsWith "rules.toml" then
    ("<file_name_start> " ++ (entry.root ++ "/" ++ entry.file) ++ " <file_name_end>\n")
      ++ ("```toml " ++ String.intercalate "\n"
            ((entry.contents.splitOn "\n").filter (fun line => !line.startsWith "#"))
          ++ "```\n")
  else ""

/-- Spec-side corpus: concatenation of the per-file blocks in traversal
order. -/
def examplesSpec : List FileEntry → String
  | [] => ""
  | entry :: rest => exampleBlock entry ++ examplesSpec rest

theorem get_completion_messages_eq (messages : List Message) (n_samples : Nat)
    (attempts : List Attempt) :
    (get_completion messages n_samples attempts).2.1 = messages := by
  induction attempts with
  | nil => rfl
  | cons a rest ih =>
    cases a with
    | ok s => rfl
    | raise e =>
      simp only [get_completion]
      split
      · simpa using ih
      · rfl

/-- C1: N transient provider failures (rate limit, timeout, API error)
followed by a success make `get_completion` log each failure, sleep for
the fixed 10-unit interval exactly N times, issue N+1 provider calls,
and return the sample list of the successful attempt. -/
theorem get_completion_retries_transient (messages : List Message) (n_samples : Nat)
    (errs : List PyError) (samples : List String) (rest : List Attempt)
    (h : ∀ e ∈ errs, isTransient e = true) :
    get_completion messages n_samples (errs.map Attempt.raise ++ (Attempt.ok samples :: rest))
      = (.ok samples, messages,
         ⟨errs.length + 1, List.replicate errs.length sleep_time, errs⟩) := by
  induction errs with
  | nil => rfl
  | cons e es ih =>
    have he : isTransient e = true := h e (List.mem_cons_self e es)
    have hes : ∀ x ∈ es, isTransient x = true := fun x hx => h x (List.mem_cons_of_mem e hx)
    simp only [List.map_cons, List.cons_append, get_completion, he, if_true, List.append_eq]
    rw [ih hes]
    rfl

theorem get_completion_retries_transient_witness :
    (∀ e ∈ [PyError.rateLimitError, PyError.timeout, PyError.apiError],
        isTransient e = true) ∧
    get_completion [] 1
        ([PyError.rateLimitError, PyError.timeout, PyError.apiError].map Attempt.raise
          ++ (Attempt.ok ["sample"] :: []))
      = (.ok ["sample"], [],
         ⟨4, List.replicate 3 sleep_time,
          [PyError.rateLimitError, PyError.timeout, PyError.apiError]⟩) :=
  ⟨by decide,
   get_completion_retries_transient [] 1
     [PyError.rateLimitError, PyError.timeout, PyError.apiError] ["sample"] []
     (by decide)⟩

/-- C2: when the conversation ends with an assistant message,
`get_model_response` returns the content of that message, issues no provider
call, sleeps never, and leaves the conversation unchanged. -/
theorem get_model_response_cached (messages : List Message) (m : Message)
    (attempts : List Attempt)
    (hlast : messages.getLast? = some m) (hrole : m.role = Role.assistant) :
    get_model_response messages attempts
      = (.ok m.content, messages, ⟨0, [], []⟩) := by
  simp [get_model_response, hlast, hrole]

theorem get_model_response_cached_witness :
    ([⟨Role.user, "q"⟩, ⟨Role.assistant, "reply"⟩] : List Message).getLast?
        = some ⟨Role.assistant, "reply"⟩ ∧
    get_model_response [⟨Role.user, "q"⟩, ⟨Role.assistant, "reply"⟩]
        [Attempt.ok ["unused"]]
      = (.ok "reply", [⟨Role.user, "q"⟩, ⟨Role.assistant, "reply"⟩], ⟨0, [], []⟩) :=
  ⟨rfl,
   get_model_response_cached [⟨Role.user, "q"⟩, ⟨Role.assistant, "reply"⟩]
     ⟨Role.assistant, "reply"⟩ [Attempt.ok ["unused"]] rfl rfl⟩

/-- C3: when the conversation does not end with an assistant message and
the provider succeeds on the first attempt, `get_model_response` issues
exactly one provider call, appends the returned sample exactly once as
an assistant message, and returns its content. -/
theorem get_model_response_first_try (messages : List Message) (m : Message)
    (content : String) (cs : List String) (rest : List Attempt)
    (hlast : messages.getLast? = some m) (hrole : m.role ≠ Role.assistant) :
    get_model_response messages (Attempt.ok (content :: cs) :: rest)
      = (.ok content, messages ++ [⟨Role.assistant, content⟩], ⟨1, [], []⟩) := by
  simp [get_model_response, hlast, hrole, get_completion, append_system_message]

theorem get_model_response_first_try_witness :
    ([⟨Role.user, "q"⟩] : List Message).getLast? = some ⟨Role.user, "q"⟩ ∧
    (Role.user ≠ Role.assistant) ∧
    get_model_response [⟨Role.user, "q"⟩] [Attempt.ok ["answer"]]
      = (.ok "answer", [⟨Role.user, "q"⟩, ⟨Role.assistant, "answer"⟩], ⟨1, [], []⟩) :=
  ⟨rfl, by decide,
   get_model_response_first_try [⟨Role.user, "q"⟩] ⟨Role.user, "q"⟩
     "answer" [] [] rfl (by decide)⟩

/-- C4: a non-transient provider exception on the first attempt
propagates unchanged out of `get_model_response`: nothing is appended to
the conversation and no sleep happens. -/
theorem get_model_response_fatal (messages : List Message) (m : Message)
    (e : PyError) (rest : List Attempt)
    (hlast : messages.getLast? = some m) (hrole : m.role ≠ Role.assistant)
    (hfatal : isTransient e = false) :
    get_model_response messages (Attempt.raise e :: rest)
      = (.exn e, messages, ⟨1, [], []⟩) := by
  simp [get_model_response, hlast, hrole, get_completion, hfatal]

theorem get_model_response_fatal_witness :
    isTransient (PyError.other "InvalidRequestError") = false ∧
    get_model_response [⟨Role.user, "q"⟩]
        [Attempt.raise (PyError.other "InvalidRequestError")]
      = (.exn (PyError.other "InvalidRequestError"), [⟨Role.user, "q"⟩], ⟨1, [], []⟩) :=
  ⟨rfl,
   get_model_response_fatal [⟨Role.user, "q"⟩] ⟨Role.user, "q"⟩
     (PyError.other "InvalidRequestError") [] rfl (by decide) rfl⟩

/-- C5 counterexample: a direct `get_completion` request for 2 samples
returns both samples but appends nothing to the conversation — in
particular the first sample is not appended. -/
theorem get_completion_no_append_cex :
    (get_completion [⟨Role.user, "q"⟩] 2 [Attempt.ok ["a", "b"]]).1
        = PyResult.ok ["a", "b"] ∧
    (get_completion [⟨Role.user, "q"⟩] 2 [Attempt.ok ["a", "b"]]).2.1
        = [⟨Role.user, "q"⟩] ∧
    (get_completion [⟨Role.user, "q"⟩] 2 [Attempt.ok ["a", "b"]]).2.1
        ≠ [⟨Role.user, "q"⟩, ⟨Role.assistant, "a"⟩] := by
  refine ⟨rfl, rfl, ?_⟩
  decide

/-- C5 (amended): a request for more than one sample returns all samples
as an ordered list in provider order; `get_completion` itself leaves the
conversation unchanged (a sample is appended only by
`get_model_response`, which always requests exactly one sample). -/
theorem get_completion_returns_all_samples (messages : List Message) (n_samples : Nat)
    (samples : List String) (rest : List Attempt) (h : 1 < n_samples) :
    get_completion messages n_samples (Attempt.ok samples :: rest)
      = (.ok samples, messages, ⟨1, [], []⟩) := rfl

theorem get_completion_returns_all_samples_witness :
    1 < 2 ∧
    get_completion [⟨Role.user, "q"⟩] 2 [Attempt.ok ["a", "b"]]
      = (.ok ["a", "b"], [⟨Role.user, "q"⟩], ⟨1, [], []⟩) :=
  ⟨by decide,
   get_completion_returns_all_samples [⟨Role.user, "q"⟩] 2 ["a", "b"] [] (by decide)⟩

/-- C6: the conversation is append-only.  Successful construction
appends exactly one user message to the (initially empty) message list,
so the conversation is never empty afterwards; `append_system_message`
and `append_user_followup` each append exactly one role-tagged message
and touch nothing else; `get_model_response` either leaves the
conversation unchanged or appends exactly one assistant message — no
prior message is ever removed, reordered, or modified. -/
theorem conversation_append_only :
    (∀ (files : List FileEntry) (holes : List (String × String))
        (messages messages' : List Message),
        attrs_post_init files holes messages = Except.ok messages' →
        (∃ m : Message, m.role = Role.user ∧ messages' = messages ++ [m])
          ∧ messages' ≠ []) ∧
    (∀ (messages : List Message) (s : String),
        append_system_message messages s = messages ++ [⟨Role.assistant, s⟩]) ∧
    (∀ (messages : List Message) (s : String),
        append_user_followup messages s = messages ++ [⟨Role.user, s⟩]) ∧
    (∀ (messages : List Message) (attempts : List Attempt)
        (r : PyResult String) (messages' : List Message) (t : Trace),
        get_model_response messages attempts = (r, messages', t) →
        messages' = messages
          ∨ ∃ c, messages' = messages ++ [⟨Role.assistant, c⟩]) := by
  refine ⟨?_, fun _ _ => rfl, fun _ _ => rfl, ?_⟩
  · intro files holes messages messages' h
    unfold attrs_post_init at h
    cases hp : pyFormat input_template_parts holes with
    | error k => simp [hp] at h
    | ok filled =>
      simp only [hp, Except.ok.injEq] at h
      subst h
      exact ⟨⟨_, rfl, rfl⟩, by simp⟩
  · intro messages attempts r messages' t h
    unfold get_model_response at h
    cases hl : messages.getLast? with
    | none =>
      simp only [hl, Prod.mk.injEq] at h
      exact Or.inl h.2.1.symm
    | some latest =>
      by_cases hr : latest.role = Role.assistant
      · simp only [hl, if_pos hr, Prod.mk.injEq] at h
        exact Or.inl h.2.1.symm
      · simp only [hl, if_neg hr] at h
        have hm := get_completion_messages_eq messages 1 attempts
        rcases hgc : get_completion messages 1 attempts with ⟨r', m', t'⟩
        rw [hgc] at h hm
        simp only at hm
        cases r' with
        | ok completions =>
          cases hh : completions.head? with
          | some content =>
            simp only [hh, Prod.mk.injEq] at h
            refine Or.inr ⟨content, ?_⟩
            rw [← h.2.1, append_system_message, hm]
          | none =>
            simp only [hh, Prod.mk.injEq] at h
            exact Or.inl (h.2.1.symm.trans hm)
        | exn e =>
          simp only [Prod.mk.injEq] at h
          exact Or.inl (h.2.1.symm.trans hm)
        | diverge =>
          simp only [Prod.mk.injEq] at h
          exact Or.inl (h.2.1.symm.trans hm)

theorem conversation_append_only_witness :
    [(⟨Role.user, "q"⟩ : Message), ⟨Role.assistant, "a"⟩]
        = [(⟨Role.user, "q"⟩ : Message)] ∨
    ∃ c, [(⟨Role.user, "q"⟩ : Message), ⟨Role.assistant, "a"⟩]
        = [(⟨Role.user, "q"⟩ : Message)] ++ [⟨Role.assistant, c⟩] :=
  conversation_append_only.2.2.2 [⟨Role.user, "q"⟩] [Attempt.ok ["a"]]
    (.ok "a") [⟨Role.user, "q"⟩, ⟨Role.assistant, "a"⟩] ⟨1, [], []⟩ rfl

/-- C7: a `holes` mapping missing any of the five template keys makes
construction fail with a `KeyError` (modelled as `Except.error`); no
message is appended (there is no `Except.ok` conversation) and the
construction involves no provider call. -/
theorem attrs_post_init_missing_hole (files : List FileEntry)
    (holes : List (String × String)) (messages : List Message)
    (h : holes.lookup "source_code" = none ∨ holes.lookup "source_tree" = none ∨
         holes.lookup "target_tree" = none ∨ holes.lookup "diff" = none ∨
         holes.lookup "hints" = none) :
    ∃ k, attrs_post_init files holes messages = Except.error k := by
  cases h1 : holes.lookup "source_code" with
  | none =>
    exact ⟨"source_code", by
      simp [attrs_post_init, pyFormat, input_template_parts, Except.map, h1]⟩
  | some v1 =>
  cases h2 : holes.lookup "source_tree" with
  | none =>
    exact ⟨"source_tree", by
      simp [attrs_post_init, pyFormat, input_template_parts, Except.map, h1, h2]⟩
  | some v2 =>
  cases h3 : holes.lookup "target_tree" with
  | none =>
    exact ⟨"target_tree", by
      simp [attrs_post_init, pyFormat, input_template_parts, Except.map, h1, h2, h3]⟩
  | some v3 =>
  cases h4 : holes.lookup "diff" with
  | none =>
    exact ⟨"diff", by
      simp [attrs_post_init, pyFormat, input_template_parts, Except.map, h1, h2, h3, h4]⟩
  | some v4 =>
  cases h5 : holes.lookup "hints" with
  | none =>
    exact ⟨"hints", by
      simp [attrs_post_init, pyFormat, input_template_parts, Except.map, h1, h2, h3, h4, h5]⟩
  | some v5 =>
    exfalso
    rcases h with h | h | h | h | h <;> simp_all

theorem attrs_post_init_missing_hole_witness :
    (([("source_code", "SC")] : List (String × String)).lookup "source_code" = none ∨
     ([("source_code", "SC")] : List (String × String)).lookup "source_tree" = none ∨
     ([("source_code", "SC")] : List (String × String)).lookup "target_tree" = none ∨
     ([("source_code", "SC")] : List (String × String)).lookup "diff" = none ∨
     ([("source_code", "SC")] : List (String × String)).lookup "hints" = none) ∧
    ∃ k, attrs_post_init [] [("source_code", "SC")] [] = Except.error k :=
  ⟨Or.inr (Or.inl rfl),
   attrs_post_init_missing_hole [] [("source_code", "SC")] [] (Or.inr (Or.inl rfl))⟩

/-- C8: with every template key present, construction appends the single
initial user message whose content is the explanation, the example
corpus, and the task template with every placeholder replaced verbatim
by its value from `holes`, concatenated in that fixed order. -/
theorem attrs_post_init_prompt (files : List FileEntry)
    (holes : List (String × String)) (messages : List Message)
    (v1 v2 v3 v4 v5 : String)
    (h1 : holes.lookup "source_code" = some v1)
    (h2 : holes.lookup "source_tree" = some v2)
    (h3 : holes.lookup "target_tree" = some v3)
    (h4 : holes.lookup "diff" = some v4)
    (h5 : holes.lookup "hints" = some v5) :
    attrs_post_init files holes messages
      = Except.ok (messages ++ [⟨Role.user,
          explanation ++ "\n" ++ _get_examples files ++ "\n"
            ++ (tmpl_0 ++ (v1 ++ (tmpl_1 ++ (v2 ++ (tmpl_2 ++ (v3
                ++ (tmpl_3 ++ (v4 ++ (tmpl_4 ++ (v5 ++ (tmpl_5 ++ "")))))))))))⟩]) := by
  simp only [attrs_post_init, pyFormat, input_template_parts, h1, h2, h3, h4, h5,
    Except.map]

theorem attrs_post_init_prompt_witness :
    ([("source_code", "SC"), ("source_tree", "ST"), ("target_tree", "TT"),
      ("diff", "DF"), ("hints", "HI")] : List (String × String)).lookup "source_code"
        = some "SC" ∧
    attrs_post_init []
        [("source_code", "SC"), ("source_tree", "ST"), ("target_tree", "TT"),
         ("diff", "DF"), ("hints", "HI")] []
      = Except.ok [⟨Role.user,
          explanation ++ "\n" ++ _get_examples [] ++ "\n"
            ++ (tmpl_0 ++ ("SC" ++ (tmpl_1 ++ ("ST" ++ (tmpl_2 ++ ("TT"
                ++ (tmpl_3 ++ ("DF" ++ (tmpl_4 ++ ("HI" ++ (tmpl_5 ++ "")))))))))))⟩] :=
  ⟨rfl,
   attrs_post_init_prompt []
     [("source_code", "SC"), ("source_tree", "ST"), ("target_tree", "TT"),
      ("diff", "DF"), ("hints", "HI")] []
     "SC" "ST" "TT" "DF" "HI" rfl rfl rfl rfl rfl⟩

theorem get_examples_foldl (files : List FileEntry) :
    ∀ acc : String,
      files.foldl
        (fun task_examples entry =>
          if entry.file.endsWith "rules.toml" then
            let file_name := entry.root ++ "/" ++ entry.file
            let file_contents := String.intercalate "\n"
              ((entry.contents.splitOn "\n").filter (fun line => !line.startsWith "#"))
            task_examples
              ++ ("<file_name_start> " ++ file_name ++ " <file_name_end>\n")
              ++ ("```toml " ++ file_contents ++ "```\n")
          else task_examples) acc
      = acc ++ examplesSpec files := by
  induction files with
  | nil => intro acc; simp [examplesSpec]
  | cons entry rest ih =>
    intro acc
    simp only [List.foldl_cons, examplesSpec]
    rw [ih]
    cases hc : entry.file.endsWith "rules.toml" <;>
      simp [exampleBlock, hc, String.append_assoc, String.empty_append]

/-- C9: `_get_examples` produces exactly the concatenation, in traversal
order, of one block per walked file whose name ends in `rules.toml` —
the joined path in a header tag followed by the contents with every line
starting with `#` removed — while non-matching files contribute
nothing (`examplesSpec` is that per-file description). -/
theorem get_examples_spec (files : List FileEntry) :
    _get_examples files = examplesSpec files := by
  unfold _get_examples
  rw [get_examples_foldl files "", String.empty_append]

/-- C10: an immediately repeated `get_model_response` after a successful
one returns the same string, performs no provider call, and leaves the
conversation unchanged: every successful call leaves an assistant
message last, so the second call takes the cache-hit branch. -/
theorem get_model_response_idempotent (messages : List Message)
    (attempts attempts2 : List Attempt) (c : String)
    (messages1 : List Message) (t : Trace)
    (h : get_model_response messages attempts = (.ok c, messages1, t)) :
    get_model_response messages1 attempts2 = (.ok c, messages1, ⟨0, [], []⟩) := by
  unfold get_model_response at h
  cases hl : messages.getLast? with
  | none => simp [hl, Prod.mk.injEq] at h
  | some latest =>
    by_cases hr : latest.role = Role.assistant
    · simp only [hl, if_pos hr, Prod.mk.injEq, PyResult.ok.injEq] at h
      obtain ⟨hc, hm, -⟩ := h
      subst hm
      subst hc
      simp [get_model_response, hl, hr]
    · simp only [hl, if_neg hr] at h
      have hm := get_completion_messages_eq messages 1 attempts
      rcases hgc : get_completion messages 1 attempts with ⟨r', m', t'⟩
      rw [hgc] at h hm
      simp only at hm
      cases r' with
      | ok completions =>
        cases hh : completions.head? with
        | some content =>
          simp only [hh, Prod.mk.injEq, PyResult.ok.injEq] at h
          obtain ⟨hc, hm1, -⟩ := h
          subst hc
          rw [← hm1, append_system_message, hm]
          simp [get_model_response, List.getLast?_concat]
        | none => simp [hh, Prod.mk.injEq] at h
      | exn e => simp [Prod.mk.injEq] at h
      | diverge => simp [Prod.mk.injEq] at h

theorem get_model_response_idempotent_witness :
    get_model_response [⟨Role.user, "q"⟩] [Attempt.ok ["answer"]]
        = (.ok "answer", [⟨Role.user, "q"⟩, ⟨Role.assistant, "answer"⟩], ⟨1, [], []⟩) ∧
    get_model_response [⟨Role.user, "q"⟩, ⟨Role.assistant, "answer"⟩] []
      = (.ok "answer", [⟨Role.user, "q"⟩, ⟨Role.assistant, "answer"⟩], ⟨0, [], []⟩) :=
  ⟨rfl,
   get_model_response_idempotent [⟨Role.user, "q"⟩] [Attempt.ok ["answer"]] []
     "answer" [⟨Role.user, "q"⟩, ⟨Role.assistant, "answer"⟩] ⟨1, [], []⟩ rfl⟩

end PiranhaChat
